import Mathlib

/-
Verification of the EVM gRPC querier facade (x/evm/keeper/grpc_query.go)
of sei-chain: address association queries, the pointer/pointee registries,
pointer version reporting, and the read-only static-call bridge.

The facade itself is translated from the Go source.  External collaborators
that are not part of the file set (keeper registry getters, artifacts
version constants, the go-ethereum hex address codec, bech32 account
address parsing, the multiplier gas meter constructor) are modelled from
the specification; each such definition carries a doc comment saying so.
-/

set_option autoImplicit false

/-- Addresses in both environments are 160-bit values; `ADDR_MOD = 2 ^ 160`. -/
def ADDR_MOD : Nat := 2 ^ 160

theorem ADDR_MOD_pos : 0 < ADDR_MOD := by
  unfold ADDR_MOD
  positivity

/-- An EVM (foreign-environment) 20-byte account address. -/
structure EVMAddr where
  val : Fin ADDR_MOD
deriving DecidableEq, Repr

/-- A native-environment (sei) 20-byte account address. -/
structure SeiAddr where
  val : Fin ADDR_MOD
deriving DecidableEq, Repr

def EVMAddr.zero : EVMAddr := ⟨⟨0, ADDR_MOD_pos⟩⟩

def SeiAddr.zero : SeiAddr := ⟨⟨0, ADDR_MOD_pos⟩⟩

/-- Big-endian list of `k` base-16 digits of `n` (most significant first). -/
def toHexDigits : Nat → Nat → List Nat
  | 0, _ => []
  | k + 1, n => toHexDigits k (n / 16) ++ [n % 16]

/-- Value denoted by a big-endian list of base-16 digits. -/
def fromHexDigits (l : List Nat) : Nat :=
  l.foldl (fun acc d => 16 * acc + d) 0

/-- Lowercase hexadecimal character for a digit value below 16. -/
def natToHexChar (d : Nat) : Char :=
  if d < 10 then Char.ofNat (48 + d) else Char.ofNat (87 + d)

/-- Value of a hexadecimal character, case insensitive; `none` on other input. -/
def hexCharVal? (c : Char) : Option Nat :=
  if 48 ≤ c.toNat ∧ c.toNat ≤ 57 then some (c.toNat - 48)
  else if 97 ≤ c.toNat ∧ c.toNat ≤ 102 then some (c.toNat - 87)
  else if 65 ≤ c.toNat ∧ c.toNat ≤ 70 then some (c.toNat - 55)
  else none

/-- Decode a character list as hexadecimal digit values; fails if any
character is not a hexadecimal digit. -/
def decodeChars : List Char → Option (List Nat)
  | [] => some []
  | c :: cs =>
    match hexCharVal? c, decodeChars cs with
    | some d, some ds => some (d :: ds)
    | _, _ => none

theorem toHexDigits_length (k : Nat) : ∀ n : Nat, (toHexDigits k n).length = k := by
  induction k with
  | zero => intro n; rfl
  | succ k ih =>
    intro n
    simp [toHexDigits, ih]

theorem toHexDigits_lt (k : Nat) :
    ∀ n d : Nat, d ∈ toHexDigits k n → d < 16 := by
  induction k with
  | zero => intro n d hd; simp [toHexDigits] at hd
  | succ k ih =>
    intro n d hd
    simp only [toHexDigits, List.mem_append, List.mem_singleton] at hd
    rcases hd with hd | hd
    · exact ih _ _ hd
    · subst hd; exact Nat.mod_lt _ (by norm_num)

theorem foldl_toHexDigits (k : Nat) :
    ∀ n a : Nat, n < 16 ^ k →
      (toHexDigits k n).foldl (fun acc d => 16 * acc + d) a = a * 16 ^ k + n := by
  induction k with
  | zero =>
    intro n a hn
    interval_cases n
    simp [toHexDigits]
  | succ k ih =>
    intro n a hn
    have hdiv : n / 16 < 16 ^ k := by
      apply Nat.div_lt_of_lt_mul
      calc n < 16 ^ (k + 1) := hn
        _ = 16 ^ k * 16 := by ring
        _ = 16 * 16 ^ k := by ring
    calc (toHexDigits (k + 1) n).foldl (fun acc d => 16 * acc + d) a
        = ((toHexDigits k (n / 16)) ++ [n % 16]).foldl (fun acc d => 16 * acc + d) a := rfl
      _ = 16 * ((toHexDigits k (n / 16)).foldl (fun acc d => 16 * acc + d) a) + n % 16 := by
          rw [List.foldl_append]
          rfl
      _ = 16 * (a * 16 ^ k + n / 16) + n % 16 := by rw [ih _ _ hdiv]
      _ = a * 16 ^ (k + 1) + (16 * (n / 16) + n % 16) := by ring
      _ = a * 16 ^ (k + 1) + n := by rw [Nat.div_add_mod]

theorem fromHexDigits_toHexDigits (k n : Nat) (hn : n < 16 ^ k) :
    fromHexDigits (toHexDigits k n) = n := by
  unfold fromHexDigits
  rw [foldl_toHexDigits k n 0 hn]
  simp

theorem hexCharVal_natToHexChar (d : Nat) (hd : d < 16) :
    hexCharVal? (natToHexChar d) = some d := by
  interval_cases d <;> decide

theorem decodeChars_map (l : List Nat) (hl : ∀ d ∈ l, d < 16) :
    decodeChars (l.map natToHexChar) = some l := by
  induction l with
  | nil => rfl
  | cons d ds ih =>
    have hd : d < 16 := hl d (List.mem_cons_self d ds)
    have hds : ∀ x ∈ ds, x < 16 := fun x hx => hl x (List.mem_cons_of_mem d hx)
    simp [decodeChars, hexCharVal_natToHexChar d hd, ih hds]

theorem sixteen_pow_forty : (16 : Nat) ^ 40 = ADDR_MOD := by
  unfold ADDR_MOD
  norm_num

/-- Canonical hexadecimal rendering of an EVM address, with a leading
`0x` and forty lowercase hexadecimal digits.
Modelled from the spec: the canonical foreign-address form produced by the
address codec (go-ethereum `common.Address.Hex`), which is not part of the
file set; checksum casing is abstracted to lowercase, which the
case-insensitive parser below inverts just as the real codec does. -/
def EVMAddr.hex (a : EVMAddr) : String :=
  String.mk ('0' :: 'x' :: (toHexDigits 40 a.val.val).map natToHexChar)

/-- Canonical bech32-style rendering of a native account address.
Modelled from the spec: the canonical native-address form produced by
`sdk.AccAddress.String`, which is not part of the file set; the checksummed
bech32 payload is abstracted to a `sei1` tag followed by forty hexadecimal
digits, keeping the properties the spec relies on: the rendering is
injective and the parser below inverts it exactly on canonical strings. -/
def SeiAddr.bech (a : SeiAddr) : String :=
  String.mk ('s' :: 'e' :: 'i' :: '1' :: (toHexDigits 40 a.val.val).map natToHexChar)

/-- Total parse of a string into an EVM address.
Modelled from the spec: go-ethereum `common.HexToAddress`, which is not
part of the file set.  It never fails: an optional `0x`/`0X` tag is
stripped, hexadecimal digits are read case-insensitively, and a string that
is not valid hexadecimal yields the zero address. -/
def hexToAddress (s : String) : EVMAddr :=
  let cs := s.data
  let cs2 := if cs.take 2 = ['0', 'x'] ∨ cs.take 2 = ['0', 'X'] then cs.drop 2 else cs
  match decodeChars cs2 with
  | some ds => ⟨⟨fromHexDigits ds % ADDR_MOD, Nat.mod_lt _ ADDR_MOD_pos⟩⟩
  | none => ⟨⟨0, ADDR_MOD_pos⟩⟩

/-- Fallible parse of a canonical native account address string.
Modelled from the spec: `sdk.AccAddressFromBech32`, which is not part of
the file set.  It accepts exactly the canonical renderings produced by
`SeiAddr.bech` and fails on anything else. -/
def accAddressFromBech32 (s : String) : Except String SeiAddr :=
  match s.data with
  | 's' :: 'e' :: 'i' :: '1' :: rest =>
    if rest.length = 40 then
      match decodeChars rest with
      | some ds => .ok ⟨⟨fromHexDigits ds % ADDR_MOD, Nat.mod_lt _ ADDR_MOD_pos⟩⟩
      | none => .error "decoding bech32 failed"
    else .error "decoding bech32 failed"
  | _ => .error "decoding bech32 failed"

theorem decode_encode (v : Nat) :
    decodeChars ((toHexDigits 40 v).map natToHexChar) = some (toHexDigits 40 v) :=
  decodeChars_map _ (toHexDigits_lt 40 v)

theorem fromHex_encode (v : Nat) (hv : v < ADDR_MOD) :
    fromHexDigits (toHexDigits 40 v) = v :=
  fromHexDigits_toHexDigits 40 v (by rw [sixteen_pow_forty]; exact hv)

theorem hexToAddress_hex (a : EVMAddr) : hexToAddress a.hex = a := by
  rcases a with ⟨⟨v, hv⟩⟩
  unfold hexToAddress EVMAddr.hex
  simp only [List.take, List.drop, true_or, if_true, decode_encode v,
    fromHex_encode v hv, Nat.mod_eq_of_lt hv]

theorem accAddressFromBech32_bech (a : SeiAddr) : accAddressFromBech32 a.bech = .ok a := by
  rcases a with ⟨⟨v, hv⟩⟩
  unfold accAddressFromBech32 SeiAddr.bech
  simp only [List.length_map, toHexDigits_length, decode_encode v,
    fromHex_encode v hv, Nat.mod_eq_of_lt hv, if_true]

theorem SeiAddr.bech_inj {a b : SeiAddr} (h : a.bech = b.bech) : a = b := by
  have ha := accAddressFromBech32_bech a
  rw [h, accAddressFromBech32_bech b] at ha
  exact (Except.ok.inj ha).symm

theorem EVMAddr.hex_ne_empty (a : EVMAddr) : a.hex ≠ "" := by
  unfold EVMAddr.hex
  intro h
  have := congrArg String.data h
  simp at this

theorem SeiAddr.bech_ne_empty (a : SeiAddr) : a.bech ≠ "" := by
  unfold SeiAddr.bech
  intro h
  have := congrArg String.data h
  simp at this

/-- One pointer-registry record: within one asset standard, the canonical
asset key `pointee`, its generated shadow contract address `pointer`, and
the schema version the pointer was created at. -/
structure PointerRecord (K P : Type) where
  pointee : K
  pointer : P
  version : Nat
deriving DecidableEq, Repr

/-- Forward resolution in a registry table: first record whose pointee key
matches. -/
def fwdLookup {K P : Type} [DecidableEq K]
    (l : List (PointerRecord K P)) (k : K) : Option (P × Nat) :=
  (l.find? (fun r => decide (r.pointee = k))).map (fun r => (r.pointer, r.version))

/-- Backward resolution in a registry table: first record whose pointer
matches. -/
def bwdLookup {K P : Type} [DecidableEq P]
    (l : List (PointerRecord K P)) (p : P) : Option (K × Nat) :=
  (l.find? (fun r => decide (r.pointer = p))).map (fun r => (r.pointee, r.version))

/-- Backward resolution keyed by the canonical bech32 rendering of the
stored native pointer address. -/
def bwdLookupBech {K : Type}
    (l : List (PointerRecord K SeiAddr)) (s : String) : Option (K × Nat) :=
  (l.find? (fun r => decide (r.pointer.bech = s))).map (fun r => (r.pointee, r.version))

/-- Shape of the Go keeper getters: `(value, version, exists)`, with the
given zero value and version 0 when no record exists. -/
def tripleOf {P : Type} (z : P) (o : Option (P × Nat)) : P × Nat × Bool :=
  match o with
  | some (p, v) => (p, v, true)
  | none => (z, 0, false)

/-- A gas meter as far as this facade observes it: its limit and the
configured gas multiplier it applies.
Modelled from the spec: the sdk gas meter is not part of the file set; a
limit of 0 is the "unset/unlimited" ambient meter. -/
structure GasMeter where
  limit : Nat
  multiplier : Nat
deriving DecidableEq, Repr

/-- The arguments of one invocation of the EVM engine entry point
`StaticCallEVM`: sender account, target address, call data, and the gas
meter in force. -/
structure EvmInvocation where
  sender : SeiAddr
  target : EVMAddr
  data : List Nat
  meter : GasMeter
deriving DecidableEq, Repr

/-- Error values returned by the querier facade.  The first four are the
concrete errors of the Go file (`sdkerrors.ErrInvalidRequest`,
`ErrMustSpecifyPointer`, `ErrMustSpecifyPointee`, `errors.ErrUnsupported`);
`errStaticCallCreate` is the literal error
"cannot use static call to create contracts"; `errBech32Decode` carries a
bech32 decoding failure propagated from `sdk.AccAddressFromBech32`;
`errEvm` carries an execution failure propagated from `StaticCallEVM`. -/
inductive QueryError where
  | errInvalidRequest
  | errMustSpecifyPointer
  | errMustSpecifyPointee
  | errUnsupported
  | errStaticCallCreate
  | errBech32Decode (msg : String)
  | errEvm (msg : String)
deriving DecidableEq, Repr

/-- The spec's `InvalidArgument` failure class.
Modelled from the spec: "InvalidArgument (empty required field, malformed
address encoding)" — it covers the request-validation errors, as opposed to
`MissingKey` (the must-specify errors), `UnsupportedStandard`
(`errUnsupported`), and execution failures. -/
def isInvalidArgumentError : QueryError → Bool
  | .errInvalidRequest => true
  | .errStaticCallCreate => true
  | .errBech32Decode _ => true
  | _ => false

/-- The chain-state snapshot and static configuration a query runs against.
The facade is a read-only view over it.
Modelled from the spec where the backing stores are not part of the file
set: `assoc` is the bidirectional account-association registry; the seven
`...Reg` lists are the per-standard pointer registries read by the keeper
getters; `cw20Version` is the live activation state that determines the
CW20 pointer version; `storedCodeIds` are the stored code identifiers per
standard; `queryGasLimit` is `QueryConfig.GasLimit`; `gasMultiplier` is the
context-configured gas multiplier; `evmModuleAddress` is the module account
address returned by `AccountKeeper().GetModuleAddress(types.ModuleName)`;
`evm` is the EVM engine entry point, returning a result and the gas it
consumed. -/
structure ChainState where
  assoc : List (SeiAddr × EVMAddr)
  nativeReg : List (PointerRecord String EVMAddr)
  cw20Reg : List (PointerRecord String EVMAddr)
  cw721Reg : List (PointerRecord String EVMAddr)
  cw1155Reg : List (PointerRecord String EVMAddr)
  erc20Reg : List (PointerRecord EVMAddr SeiAddr)
  erc721Reg : List (PointerRecord EVMAddr SeiAddr)
  erc1155Reg : List (PointerRecord EVMAddr SeiAddr)
  cw20Version : Nat
  storedCodeIds : List (Int × Nat)
  queryGasLimit : Nat
  gasMultiplier : Nat
  evmModuleAddress : SeiAddr
  evm : EvmInvocation → Except String (List Nat) × Nat

/-- Modelled from the spec: keeper lookup of the native address associated
to an EVM address (`Keeper.GetSeiAddress`). -/
def GetSeiAddress (st : ChainState) (e : EVMAddr) : SeiAddr × Bool :=
  match st.assoc.find? (fun q => decide (q.2 = e)) with
  | some q => (q.1, true)
  | none => (SeiAddr.zero, false)

/-- Modelled from the spec: keeper lookup of the EVM address associated to
a native address (`Keeper.GetEVMAddress`). -/
def GetEVMAddress (st : ChainState) (s : SeiAddr) : EVMAddr × Bool :=
  match st.assoc.find? (fun q => decide (q.1 = s)) with
  | some q => (q.2, true)
  | none => (EVMAddr.zero, false)

/-- Modelled from the spec: keeper forward lookup of the ERC20 pointer of a
native denomination (`Keeper.GetERC20NativePointer`). -/
def GetERC20NativePointer (st : ChainState) (token : String) : EVMAddr × Nat × Bool :=
  tripleOf EVMAddr.zero (fwdLookup st.nativeReg token)

/-- Modelled from the spec: keeper forward lookup of the ERC20 pointer of a
CW20 contract (`Keeper.GetERC20CW20Pointer`). -/
def GetERC20CW20Pointer (st : ChainState) (cw20Address : String) : EVMAddr × Nat × Bool :=
  tripleOf EVMAddr.zero (fwdLookup st.cw20Reg cw20Address)

/-- Modelled from the spec: keeper forward lookup of the ERC721 pointer of
a CW721 contract (`Keeper.GetERC721CW721Pointer`). -/
def GetERC721CW721Pointer (st : ChainState) (cw721Address : String) : EVMAddr × Nat × Bool :=
  tripleOf EVMAddr.zero (fwdLookup st.cw721Reg cw721Address)

/-- Modelled from the spec: keeper forward lookup of the ERC1155 pointer of
a CW1155 contract (`Keeper.GetERC1155CW1155Pointer`). -/
def GetERC1155CW1155Pointer (st : ChainState) (cw1155Address : String) : EVMAddr × Nat × Bool :=
  tripleOf EVMAddr.zero (fwdLookup st.cw1155Reg cw1155Address)

/-- Modelled from the spec: keeper forward lookup of the CW20 pointer of an
ERC20 contract (`Keeper.GetCW20ERC20Pointer`). -/
def GetCW20ERC20Pointer (st : ChainState) (a : EVMAddr) : SeiAddr × Nat × Bool :=
  tripleOf SeiAddr.zero (fwdLookup st.erc20Reg a)

/-- Modelled from the spec: keeper forward lookup of the CW721 pointer of
an ERC721 contract (`Keeper.GetCW721ERC721Pointer`). -/
def GetCW721ERC721Pointer (st : ChainState) (a : EVMAddr) : SeiAddr × Nat × Bool :=
  tripleOf SeiAddr.zero (fwdLookup st.erc721Reg a)

/-- Modelled from the spec: keeper forward lookup of the CW1155 pointer of
an ERC1155 contract (`Keeper.GetCW1155ERC1155Pointer`). -/
def GetCW1155ERC1155Pointer (st : ChainState) (a : EVMAddr) : SeiAddr × Nat × Bool :=
  tripleOf SeiAddr.zero (fwdLookup st.erc1155Reg a)

/-- Modelled from the spec: keeper backward lookup from an ERC20 pointer
address to the native denomination it represents
(`Keeper.GetNativePointee`); the keeper canonicalizes the queried address
string. -/
def GetNativePointee (st : ChainState) (s : String) : String × Nat × Bool :=
  tripleOf "" (bwdLookup st.nativeReg (hexToAddress s))

/-- Modelled from the spec: keeper backward lookup from an ERC20 pointer
address to the CW20 contract it represents (`Keeper.GetCW20Pointee`). -/
def GetCW20Pointee (st : ChainState) (a : EVMAddr) : String × Nat × Bool :=
  tripleOf "" (bwdLookup st.cw20Reg a)

/-- Modelled from the spec: keeper backward lookup from an ERC721 pointer
address to the CW721 contract it represents (`Keeper.GetCW721Pointee`). -/
def GetCW721Pointee (st : ChainState) (a : EVMAddr) : String × Nat × Bool :=
  tripleOf "" (bwdLookup st.cw721Reg a)

/-- Modelled from the spec: keeper backward lookup from an ERC1155 pointer
address to the CW1155 contract it represents (`Keeper.GetCW1155Pointee`). -/
def GetCW1155Pointee (st : ChainState) (a : EVMAddr) : String × Nat × Bool :=
  tripleOf "" (bwdLookup st.cw1155Reg a)

/-- Modelled from the spec: keeper backward lookup from a CW20 pointer
contract (given in canonical bech32 form) to the ERC20 contract it
represents (`Keeper.GetERC20Pointee`). -/
def GetERC20Pointee (st : ChainState) (s : String) : EVMAddr × Nat × Bool :=
  tripleOf EVMAddr.zero (bwdLookupBech st.erc20Reg s)

/-- Modelled from the spec: keeper backward lookup from a CW721 pointer
contract to the ERC721 contract it represents (`Keeper.GetERC721Pointee`). -/
def GetERC721Pointee (st : ChainState) (s : String) : EVMAddr × Nat × Bool :=
  tripleOf EVMAddr.zero (bwdLookupBech st.erc721Reg s)

/-- Modelled from the spec: keeper backward lookup from a CW1155 pointer
contract to the ERC1155 contract it represents
(`Keeper.GetERC1155Pointee`). -/
def GetERC1155Pointee (st : ChainState) (s : String) : EVMAddr × Nat × Bool :=
  tripleOf EVMAddr.zero (bwdLookupBech st.erc1155Reg s)

/-- Modelled from the spec: stored code identifier for a code-template
standard (`Keeper.GetStoredPointerCodeID`); the zero sentinel when no code
has ever been stored. -/
def GetStoredPointerCodeID (st : ChainState) (pt : Int) : Nat :=
  ((st.storedCodeIds.find? (fun q => decide (q.1 = pt))).map Prod.snd).getD 0

/-- Modelled from the spec: `sdk.NewGasMeterWithMultiplier(ctx, limit)` —
a fresh gas meter with the given limit and the context-configured gas
multiplier. -/
def NewGasMeterWithMultiplier (st : ChainState) (limit : Nat) : GasMeter :=
  { limit := limit, multiplier := st.gasMultiplier }

/-- Modelled from the spec: compile-time-fixed pointer version constant of
the `native` artifacts package (the concrete value is immaterial to the
properties proved here). -/
def nativeCurrentVersion : Nat := 1

/-- Modelled from the spec: compile-time-fixed pointer version constant of
the `cw721` artifacts package. -/
def cw721CurrentVersion : Nat := 1

/-- Modelled from the spec: compile-time-fixed pointer version constant of
the `cw1155` artifacts package. -/
def cw1155CurrentVersion : Nat := 1

/-- Modelled from the spec: compile-time-fixed pointer version constant of
the `erc20` artifacts package. -/
def erc20CurrentVersion : Nat := 1

/-- Modelled from the spec: compile-time-fixed pointer version constant of
the `erc721` artifacts package. -/
def erc721CurrentVersion : Nat := 1

/-- Modelled from the spec: compile-time-fixed pointer version constant of
the `erc1155` artifacts package. -/
def erc1155CurrentVersion : Nat := 1

/-- Modelled from the spec: `cw20.CurrentVersion(ctx)` — the CW20 pointer
version is computed from live chain configuration/activation state of the
query's context, not from a compile-time constant. -/
def cw20CurrentVersion (st : ChainState) : Nat :=
  st.cw20Version

/-- The `types.PointerType` protobuf enumeration is an integer type; the
seven known tags follow. -/
def PointerType_NATIVE : Int := 0

def PointerType_CW20 : Int := 1

def PointerType_CW721 : Int := 2

def PointerType_CW1155 : Int := 3

def PointerType_ERC20 : Int := 4

def PointerType_ERC721 : Int := 5

def PointerType_ERC1155 : Int := 6

/-- The seven known asset-standard tags. -/
def knownPointerTypes : List Int :=
  [PointerType_NATIVE, PointerType_CW20, PointerType_CW721, PointerType_CW1155,
   PointerType_ERC20, PointerType_ERC721, PointerType_ERC1155]

structure QuerySeiAddressByEVMAddressRequest where
  evmAddress : String
deriving DecidableEq, Repr

structure QuerySeiAddressByEVMAddressResponse where
  seiAddress : String := ""
  associated : Bool := false
deriving DecidableEq, Repr

structure QueryEVMAddressBySeiAddressRequest where
  seiAddress : String
deriving DecidableEq, Repr

structure QueryEVMAddressBySeiAddressResponse where
  evmAddress : String := ""
  associated : Bool := false
deriving DecidableEq, Repr

structure QueryStaticCallRequest where
  To : String
  Data : List Nat
deriving DecidableEq, Repr

structure QueryStaticCallResponse where
  data : List Nat
deriving DecidableEq, Repr

structure QueryPointerRequest where
  pointerType : Int
  pointee : String
deriving DecidableEq, Repr

/-- Response of `Pointer`; `existsFlag` is the Go field `Exists`. -/
structure QueryPointerResponse where
  pointer : String := ""
  version : Nat := 0
  existsFlag : Bool := false
deriving DecidableEq, Repr

structure QueryPointerVersionRequest where
  pointerType : Int
deriving DecidableEq, Repr

structure QueryPointerVersionResponse where
  version : Nat := 0
  cwCodeId : Nat := 0
deriving DecidableEq, Repr

structure QueryPointeeRequest where
  pointerType : Int
  pointer : String
deriving DecidableEq, Repr

/-- Response of `Pointee`; `existsFlag` is the Go field `Exists`. -/
structure QueryPointeeResponse where
  pointee : String := ""
  version : Nat := 0
  existsFlag : Bool := false
deriving DecidableEq, Repr

/-- Outcome of one `StaticCall` query: the returned value or error, the gas
consumed while serving it, and the EVM engine invocation it made, if any. -/
structure StaticCallOutcome where
  result : Except QueryError QueryStaticCallResponse
  gasUsed : Nat
  invocation : Option EvmInvocation

/-- Querier.SeiAddressByEVMAddress, translated from the source: reject an
empty address, coerce the string through the hex codec, and look up the
association. -/
def SeiAddressByEVMAddress (st : ChainState) (req : QuerySeiAddressByEVMAddressRequest) :
    Except QueryError QuerySeiAddressByEVMAddressResponse :=
  if req.evmAddress = "" then .error .errInvalidRequest
  else
    let evmAddr := hexToAddress req.evmAddress
    let (addr, found) := GetSeiAddress st evmAddr
    if !found then .ok { associated := false }
    else .ok { seiAddress := addr.bech, associated := true }

/-- Querier.EVMAddressBySeiAddress, translated from the source: reject an
empty address, parse the bech32 string (propagating its error), and look up
the association. -/
def EVMAddressBySeiAddress (st : ChainState) (req : QueryEVMAddressBySeiAddressRequest) :
    Except QueryError QueryEVMAddressBySeiAddressResponse :=
  if req.seiAddress = "" then .error .errInvalidRequest
  else
    match accAddressFromBech32 req.seiAddress with
    | .error e => .error (.errBech32Decode e)
    | .ok seiAddr =>
      let (addr, found) := GetEVMAddress st seiAddr
      if !found then .ok { associated := false }
      else .ok { evmAddress := addr.hex, associated := true }

/-- Querier.StaticCall, translated from the source: reject an empty target;
if the ambient meter has limit 0, replace it by a fresh multiplier meter
with the configured query gas limit; then run the EVM engine with the
module account as sender. -/
def StaticCall (st : ChainState) (ambient : GasMeter) (req : QueryStaticCallRequest) :
    StaticCallOutcome :=
  if req.To = "" then { result := .error .errStaticCallCreate, gasUsed := 0, invocation := none }
  else
    let meter := if ambient.limit = 0 then NewGasMeterWithMultiplier st st.queryGasLimit else ambient
    let inv : EvmInvocation :=
      { sender := st.evmModuleAddress, target := hexToAddress req.To,
        data := req.Data, meter := meter }
    match st.evm inv with
    | (.ok res, g) => { result := .ok { data := res }, gasUsed := g, invocation := some inv }
    | (.error e, g) => { result := .error (.errEvm e), gasUsed := g, invocation := some inv }

/-- Querier.Pointer, translated from the source: reject an empty pointee
key, then dispatch on the standard tag to the keeper's forward lookup;
any other tag is unsupported. -/
def Pointer (st : ChainState) (req : QueryPointerRequest) :
    Except QueryError QueryPointerResponse :=
  if req.pointee = "" then .error .errMustSpecifyPointee
  else if req.pointerType = PointerType_NATIVE then
    let (p, v, e) := GetERC20NativePointer st req.pointee
    if !e then .ok { existsFlag := e }
    else .ok { pointer := p.hex, version := v, existsFlag := e }
  else if req.pointerType = PointerType_CW20 then
    let (p, v, e) := GetERC20CW20Pointer st req.pointee
    if !e then .ok { existsFlag := e }
    else .ok { pointer := p.hex, version := v, existsFlag := e }
  else if req.pointerType = PointerType_CW721 then
    let (p, v, e) := GetERC721CW721Pointer st req.pointee
    if !e then .ok { existsFlag := e }
    else .ok { pointer := p.hex, version := v, existsFlag := e }
  else if req.pointerType = PointerType_CW1155 then
    let (p, v, e) := GetERC1155CW1155Pointer st req.pointee
    if !e then .ok { existsFlag := e }
    else .ok { pointer := p.hex, version := v, existsFlag := e }
  else if req.pointerType = PointerType_ERC20 then
    let (p, v, e) := GetCW20ERC20Pointer st (hexToAddress req.pointee)
    if !e then .ok { existsFlag := e }
    else .ok { pointer := p.bech, version := v, existsFlag := e }
  else if req.pointerType = PointerType_ERC721 then
    let (p, v, e) := GetCW721ERC721Pointer st (hexToAddress req.pointee)
    if !e then .ok { existsFlag := e }
    else .ok { pointer := p.bech, version := v, existsFlag := e }
  else if req.pointerType = PointerType_ERC1155 then
    let (p, v, e) := GetCW1155ERC1155Pointer st (hexToAddress req.pointee)
    if !e then .ok { existsFlag := e }
    else .ok { pointer := p.bech, version := v, existsFlag := e }
  else .error .errUnsupported

/-- Querier.PointerVersion, translated from the source: dispatch on the
standard tag; the four CW-facing standards report only a version, the three
ERC-facing (code-template) standards also report the stored code
identifier; any other tag is unsupported. -/
def PointerVersion (st : ChainState) (req : QueryPointerVersionRequest) :
    Except QueryError QueryPointerVersionResponse :=
  if req.pointerType = PointerType_NATIVE then
    .ok { version := nativeCurrentVersion }
  else if req.pointerType = PointerType_CW20 then
    .ok { version := cw20CurrentVersion st }
  else if req.pointerType = PointerType_CW721 then
    .ok { version := cw721CurrentVersion }
  else if req.pointerType = PointerType_CW1155 then
    .ok { version := cw1155CurrentVersion }
  else if req.pointerType = PointerType_ERC20 then
    .ok { version := erc20CurrentVersion,
          cwCodeId := GetStoredPointerCodeID st PointerType_ERC20 }
  else if req.pointerType = PointerType_ERC721 then
    .ok { version := erc721CurrentVersion,
          cwCodeId := GetStoredPointerCodeID st PointerType_ERC721 }
  else if req.pointerType = PointerType_ERC1155 then
    .ok { version := erc1155CurrentVersion,
          cwCodeId := GetStoredPointerCodeID st PointerType_ERC1155 }
  else .error .errUnsupported

/-- Querier.Pointee, translated from the source: reject an empty pointer
address, then dispatch on the standard tag to the keeper's backward lookup;
any other tag is unsupported. -/
def Pointee (st : ChainState) (req : QueryPointeeRequest) :
    Except QueryError QueryPointeeResponse :=
  if req.pointer = "" then .error .errMustSpecifyPointer
  else if req.pointerType = PointerType_NATIVE then
    let (p, v, e) := GetNativePointee st req.pointer
    if !e then .ok { existsFlag := e }
    else .ok { pointee := p, version := v, existsFlag := e }
  else if req.pointerType = PointerType_CW20 then
    let (p, v, e) := GetCW20Pointee st (hexToAddress req.pointer)
    if !e then .ok { existsFlag := e }
    else .ok { pointee := p, version := v, existsFlag := e }
  else if req.pointerType = PointerType_CW721 then
    let (p, v, e) := GetCW721Pointee st (hexToAddress req.pointer)
    if !e then .ok { existsFlag := e }
    else .ok { pointee := p, version := v, existsFlag := e }
  else if req.pointerType = PointerType_CW1155 then
    let (p, v, e) := GetCW1155Pointee st (hexToAddress req.pointer)
    if !e then .ok { existsFlag := e }
    else .ok { pointee := p, version := v, existsFlag := e }
  else if req.pointerType = PointerType_ERC20 then
    let (p, v, e) := GetERC20Pointee st req.pointer
    if !e then .ok { existsFlag := e }
    else .ok { pointee := p.hex, version := v, existsFlag := e }
  else if req.pointerType = PointerType_ERC721 then
    let (p, v, e) := GetERC721Pointee st req.pointer
    if !e then .ok { existsFlag := e }
    else .ok { pointee := p.hex, version := v, existsFlag := e }
  else if req.pointerType = PointerType_ERC1155 then
    let (p, v, e) := GetERC1155Pointee st req.pointer
    if !e then .ok { existsFlag := e }
    else .ok { pointee := p.hex, version := v, existsFlag := e }
  else .error .errUnsupported

theorem find_of_nodup_key {α β : Type} [DecidableEq β] (f : α → β) :
    ∀ (l : List α) (r : α), (l.map f).Nodup → r ∈ l →
      l.find? (fun x => decide (f x = f r)) = some r := by
  intro l
  induction l with
  | nil => intro r _ hr; cases hr
  | cons h t ih =>
    intro r hnd hr
    rw [List.map_cons, List.nodup_cons] at hnd
    by_cases hfe : f h = f r
    · have hrh : r = h := by
        rcases List.mem_cons.mp hr with h1 | h1
        · exact h1
        · exfalso
          apply hnd.1
          rw [hfe]
          exact List.mem_map_of_mem f h1
      subst hrh
      exact List.find?_cons_of_pos t (by simp [hfe])
    · have hrt : r ∈ t := by
        rcases List.mem_cons.mp hr with h1 | h1
        · exact absurd (by rw [h1]) hfe
        · exact h1
      rw [List.find?_cons_of_neg t (by simp [hfe])]
      exact ih r hnd.2 hrt

theorem fwdLookup_mem {K P : Type} [DecidableEq K]
    {l : List (PointerRecord K P)} {r : PointerRecord K P}
    (hnd : (l.map (fun x => x.pointee)).Nodup) (hr : r ∈ l) :
    fwdLookup l r.pointee = some (r.pointer, r.version) := by
  unfold fwdLookup
  rw [find_of_nodup_key (fun x => x.pointee) l r hnd hr]
  rfl

theorem bwdLookup_mem {K P : Type} [DecidableEq P]
    {l : List (PointerRecord K P)} {r : PointerRecord K P}
    (hnd : (l.map (fun x => x.pointer)).Nodup) (hr : r ∈ l) :
    bwdLookup l r.pointer = some (r.pointee, r.version) := by
  unfold bwdLookup
  rw [find_of_nodup_key (fun x => x.pointer) l r hnd hr]
  rfl

theorem nodup_map_bech {K : Type} {l : List (PointerRecord K SeiAddr)}
    (hnd : (l.map (fun x => x.pointer)).Nodup) :
    (l.map (fun x => x.pointer.bech)).Nodup := by
  have heq : l.map (fun x => x.pointer.bech) = (l.map (fun x => x.pointer)).map SeiAddr.bech := by
    rw [List.map_map]
    rfl
  rw [heq]
  exact hnd.map (fun a b h => SeiAddr.bech_inj h)

theorem bwdLookupBech_mem {K : Type}
    {l : List (PointerRecord K SeiAddr)} {r : PointerRecord K SeiAddr}
    (hnd : (l.map (fun x => x.pointer)).Nodup) (hr : r ∈ l) :
    bwdLookupBech l r.pointer.bech = some (r.pointee, r.version) := by
  unfold bwdLookupBech
  rw [find_of_nodup_key (fun x => x.pointer.bech) l r (nodup_map_bech hnd) hr]
  rfl

/-- Well-formedness of one registry table: the bijective-registry invariant
of the data model — no two records share a pointee key and no two records
share a pointer address. -/
abbrev RegWF {K P : Type} [DecidableEq K] [DecidableEq P]
    (l : List (PointerRecord K P)) : Prop :=
  (l.map (fun r => r.pointee)).Nodup ∧ (l.map (fun r => r.pointer)).Nodup

/-- Well-formedness of a chain-state snapshot: every registry satisfies the
bijective-registry invariant, and every registered string pointee key is a
non-empty canonical identifier. -/
abbrev StateWF (st : ChainState) : Prop :=
  RegWF st.nativeReg ∧ RegWF st.cw20Reg ∧ RegWF st.cw721Reg ∧ RegWF st.cw1155Reg ∧
  RegWF st.erc20Reg ∧ RegWF st.erc721Reg ∧ RegWF st.erc1155Reg ∧
  (∀ r ∈ st.nativeReg, r.pointee ≠ "") ∧ (∀ r ∈ st.cw20Reg, r.pointee ≠ "") ∧
  (∀ r ∈ st.cw721Reg, r.pointee ≠ "") ∧ (∀ r ∈ st.cw1155Reg, r.pointee ≠ "")

theorem Pointer_native_found {st : ChainState} {r : PointerRecord String EVMAddr}
    (hnd : (st.nativeReg.map (fun x => x.pointee)).Nodup)
    (hne : r.pointee ≠ "") (hr : r ∈ st.nativeReg) :
    Pointer st { pointerType := PointerType_NATIVE, pointee := r.pointee } =
      .ok { pointer := r.pointer.hex, version := r.version, existsFlag := true } := by
  unfold Pointer GetERC20NativePointer
  rw [fwdLookup_mem hnd hr]
  simp [hne, tripleOf]

theorem Pointer_cw20_found {st : ChainState} {r : PointerRecord String EVMAddr}
    (hnd : (st.cw20Reg.map (fun x => x.pointee)).Nodup)
    (hne : r.pointee ≠ "") (hr : r ∈ st.cw20Reg) :
    Pointer st { pointerType := PointerType_CW20, pointee := r.pointee } =
      .ok { pointer := r.pointer.hex, version := r.version, existsFlag := true } := by
  unfold Pointer GetERC20CW20Pointer
  rw [fwdLookup_mem hnd hr]
  simp [hne, tripleOf, PointerType_NATIVE, PointerType_CW20]

theorem Pointer_cw721_found {st : ChainState} {r : PointerRecord String EVMAddr}
    (hnd : (st.cw721Reg.map (fun x => x.pointee)).Nodup)
    (hne : r.pointee ≠ "") (hr : r ∈ st.cw721Reg) :
    Pointer st { pointerType := PointerType_CW721, pointee := r.pointee } =
      .ok { pointer := r.pointer.hex, version := r.version, existsFlag := true } := by
  unfold Pointer GetERC721CW721Pointer
  rw [fwdLookup_mem hnd hr]
  simp [hne, tripleOf, PointerType_NATIVE, PointerType_CW20, PointerType_CW721]

theorem Pointer_cw1155_found {st : ChainState} {r : PointerRecord String EVMAddr}
    (hnd : (st.cw1155Reg.map (fun x => x.pointee)).Nodup)
    (hne : r.pointee ≠ "") (hr : r ∈ st.cw1155Reg) :
    Pointer st { pointerType := PointerType_CW1155, pointee := r.pointee } =
      .ok { pointer := r.pointer.hex, version := r.version, existsFlag := true } := by
  unfold Pointer GetERC1155CW1155Pointer
  rw [fwdLookup_mem hnd hr]
  simp [hne, tripleOf, PointerType_NATIVE, PointerType_CW20, PointerType_CW721,
    PointerType_CW1155]

theorem Pointer_erc20_found {st : ChainState} {r : PointerRecord EVMAddr SeiAddr}
    (hnd : (st.erc20Reg.map (fun x => x.pointee)).Nodup) (hr : r ∈ st.erc20Reg) :
    Pointer st { pointerType := PointerType_ERC20, pointee := r.pointee.hex } =
      .ok { pointer := r.pointer.bech, version := r.version, existsFlag := true } := by
  unfold Pointer GetCW20ERC20Pointer
  rw [hexToAddress_hex, fwdLookup_mem hnd hr]
  simp [EVMAddr.hex_ne_empty r.pointee, tripleOf, PointerType_NATIVE, PointerType_CW20,
    PointerType_CW721, PointerType_CW1155, PointerType_ERC20]

theorem Pointer_erc721_found {st : ChainState} {r : PointerRecord EVMAddr SeiAddr}
    (hnd : (st.erc721Reg.map (fun x => x.pointee)).Nodup) (hr : r ∈ st.erc721Reg) :
    Pointer st { pointerType := PointerType_ERC721, pointee := r.pointee.hex } =
      .ok { pointer := r.pointer.bech, version := r.version, existsFlag := true } := by
  unfold Pointer GetCW721ERC721Pointer
  rw [hexToAddress_hex, fwdLookup_mem hnd hr]
  simp [EVMAddr.hex_ne_empty r.pointee, tripleOf, PointerType_NATIVE, PointerType_CW20,
    PointerType_CW721, PointerType_CW1155, PointerType_ERC20, PointerType_ERC721]

theorem Pointer_erc1155_found {st : ChainState} {r : PointerRecord EVMAddr SeiAddr}
    (hnd : (st.erc1155Reg.map (fun x => x.pointee)).Nodup) (hr : r ∈ st.erc1155Reg) :
    Pointer st { pointerType := PointerType_ERC1155, pointee := r.pointee.hex } =
      .ok { pointer := r.pointer.bech, version := r.version, existsFlag := true } := by
  unfold Pointer GetCW1155ERC1155Pointer
  rw [hexToAddress_hex, fwdLookup_mem hnd hr]
  simp [EVMAddr.hex_ne_empty r.pointee, tripleOf, PointerType_NATIVE, PointerType_CW20,
    PointerType_CW721, PointerType_CW1155, PointerType_ERC20, PointerType_ERC721,
    PointerType_ERC1155]

theorem Pointee_native_found {st : ChainState} {r : PointerRecord String EVMAddr}
    (hnd : (st.nativeReg.map (fun x => x.pointer)).Nodup) (hr : r ∈ st.nativeReg) :
    Pointee st { pointerType := PointerType_NATIVE, pointer := r.pointer.hex } =
      .ok { pointee := r.pointee, version := r.version, existsFlag := true } := by
  unfold Pointee GetNativePointee
  rw [hexToAddress_hex, bwdLookup_mem hnd hr]
  simp [EVMAddr.hex_ne_empty r.pointer, tripleOf]

theorem Pointee_cw20_found {st : ChainState} {r : PointerRecord String EVMAddr}
    (hnd : (st.cw20Reg.map (fun x => x.pointer)).Nodup) (hr : r ∈ st.cw20Reg) :
    Pointee st { pointerType := PointerType_CW20, pointer := r.pointer.hex } =
      .ok { pointee := r.pointee, version := r.version, existsFlag := true } := by
  unfold Pointee GetCW20Pointee
  rw [hexToAddress_hex, bwdLookup_mem hnd hr]
  simp [EVMAddr.hex_ne_empty r.pointer, tripleOf, PointerType_NATIVE, PointerType_CW20]

theorem Pointee_cw721_found {st : ChainState} {r : PointerRecord String EVMAddr}
    (hnd : (st.cw721Reg.map (fun x => x.pointer)).Nodup) (hr : r ∈ st.cw721Reg) :
    Pointee st { pointerType := PointerType_CW721, pointer := r.pointer.hex } =
      .ok { pointee := r.pointee, version := r.version, existsFlag := true } := by
  unfold Pointee GetCW721Pointee
  rw [hexToAddress_hex, bwdLookup_mem hnd hr]
  simp [EVMAddr.hex_ne_empty r.pointer, tripleOf, PointerType_NATIVE, PointerType_CW20,
    PointerType_CW721]

theorem Pointee_cw1155_found {st : ChainState} {r : PointerRecord String EVMAddr}
    (hnd : (st.cw1155Reg.map (fun x => x.pointer)).Nodup) (hr : r ∈ st.cw1155Reg) :
    Pointee st { pointerType := PointerType_CW1155, pointer := r.pointer.hex } =
      .ok { pointee := r.pointee, version := r.version, existsFlag := true } := by
  unfold Pointee GetCW1155Pointee
  rw [hexToAddress_hex, bwdLookup_mem hnd hr]
  simp [EVMAddr.hex_ne_empty r.pointer, tripleOf, PointerType_NATIVE, PointerType_CW20,
    PointerType_CW721, PointerType_CW1155]

theorem Pointee_erc20_found {st : ChainState} {r : PointerRecord EVMAddr SeiAddr}
    (hnd : (st.erc20Reg.map (fun x => x.pointer)).Nodup) (hr : r ∈ st.erc20Reg) :
    Pointee st { pointerType := PointerType_ERC20, pointer := r.pointer.bech } =
      .ok { pointee := r.pointee.hex, version := r.version, existsFlag := true } := by
  unfold Pointee GetERC20Pointee
  rw [bwdLookupBech_mem hnd hr]
  simp [SeiAddr.bech_ne_empty r.pointer, tripleOf, PointerType_NATIVE, PointerType_CW20,
    PointerType_CW721, PointerType_CW1155, PointerType_ERC20]

theorem Pointee_erc721_found {st : ChainState} {r : PointerRecord EVMAddr SeiAddr}
    (hnd : (st.erc721Reg.map (fun x => x.pointer)).Nodup) (hr : r ∈ st.erc721Reg) :
    Pointee st { pointerType := PointerType_ERC721, pointer := r.pointer.bech } =
      .ok { pointee := r.pointee.hex, version := r.version, existsFlag := true } := by
  unfold Pointee GetERC721Pointee
  rw [bwdLookupBech_mem hnd hr]
  simp [SeiAddr.bech_ne_empty r.pointer, tripleOf, PointerType_NATIVE, PointerType_CW20,
    PointerType_CW721, PointerType_CW1155, PointerType_ERC20, PointerType_ERC721]

theorem Pointee_erc1155_found {st : ChainState} {r : PointerRecord EVMAddr SeiAddr}
    (hnd : (st.erc1155Reg.map (fun x => x.pointer)).Nodup) (hr : r ∈ st.erc1155Reg) :
    Pointee st { pointerType := PointerType_ERC1155, pointer := r.pointer.bech } =
      .ok { pointee := r.pointee.hex, version := r.version, existsFlag := true } := by
  unfold Pointee GetERC1155Pointee
  rw [bwdLookupBech_mem hnd hr]
  simp [SeiAddr.bech_ne_empty r.pointer, tripleOf, PointerType_NATIVE, PointerType_CW20,
    PointerType_CW721, PointerType_CW1155, PointerType_ERC20, PointerType_ERC721,
    PointerType_ERC1155]

deriving instance DecidableEq for Except

/-- Address constructor for concrete test values. -/
def mkEVM (n : Nat) : EVMAddr := ⟨⟨n % ADDR_MOD, Nat.mod_lt _ ADDR_MOD_pos⟩⟩

/-- Address constructor for concrete test values. -/
def mkSei (n : Nat) : SeiAddr := ⟨⟨n % ADDR_MOD, Nat.mod_lt _ ADDR_MOD_pos⟩⟩

/-- A small concrete chain-state snapshot with one record in every
registry, used to instantiate the theorems below on closed inputs. -/
def exSt : ChainState :=
  { assoc := [(mkSei 11, mkEVM 21)]
  , nativeReg := [{ pointee := "usei", pointer := mkEVM 31, version := 1 }]
  , cw20Reg := [{ pointee := "cw20tok", pointer := mkEVM 32, version := 2 }]
  , cw721Reg := [{ pointee := "cw721tok", pointer := mkEVM 33, version := 1 }]
  , cw1155Reg := [{ pointee := "cw1155tok", pointer := mkEVM 34, version := 1 }]
  , erc20Reg := [{ pointee := mkEVM 41, pointer := mkSei 51, version := 1 }]
  , erc721Reg := [{ pointee := mkEVM 42, pointer := mkSei 52, version := 1 }]
  , erc1155Reg := [{ pointee := mkEVM 43, pointer := mkSei 53, version := 1 }]
  , cw20Version := 2
  , storedCodeIds := [(PointerType_ERC20, 7)]
  , queryGasLimit := 300000
  , gasMultiplier := 2
  , evmModuleAddress := mkSei 99
  , evm := fun _ => (.ok [], 21) }

example : StateWF exSt := by decide

example : Pointer exSt { pointerType := 0, pointee := "usei" } =
    .ok { pointer := (mkEVM 31).hex, version := 1, existsFlag := true } := by decide

example : Pointee exSt { pointerType := 0, pointer := (mkEVM 31).hex } =
    .ok { pointee := "usei", version := 1, existsFlag := true } := by decide

example : Pointee exSt { pointerType := 4, pointer := (mkSei 51).bech } =
    .ok { pointee := (mkEVM 41).hex, version := 1, existsFlag := true } := by decide

/-- C1: for every asset standard among the seven known tags and every
registered record of a well-formed snapshot, resolving the registered
pointee key via `Pointer` yields the registered pointer address, and
resolving that pointer address via `Pointee` returns the original pointee
key (with the same version); read jointly in both orders this is the
round-trip property in both directions. -/
theorem pointer_pointee_round_trip (st : ChainState) (hWF : StateWF st) :
    (∀ r ∈ st.nativeReg,
      Pointer st { pointerType := PointerType_NATIVE, pointee := r.pointee } =
        .ok { pointer := r.pointer.hex, version := r.version, existsFlag := true } ∧
      Pointee st { pointerType := PointerType_NATIVE, pointer := r.pointer.hex } =
        .ok { pointee := r.pointee, version := r.version, existsFlag := true }) ∧
    (∀ r ∈ st.cw20Reg,
      Pointer st { pointerType := PointerType_CW20, pointee := r.pointee } =
        .ok { pointer := r.pointer.hex, version := r.version, existsFlag := true } ∧
      Pointee st { pointerType := PointerType_CW20, pointer := r.pointer.hex } =
        .ok { pointee := r.pointee, version := r.version, existsFlag := true }) ∧
    (∀ r ∈ st.cw721Reg,
      Pointer st { pointerType := PointerType_CW721, pointee := r.pointee } =
        .ok { pointer := r.pointer.hex, version := r.version, existsFlag := true } ∧
      Pointee st { pointerType := PointerType_CW721, pointer := r.pointer.hex } =
        .ok { pointee := r.pointee, version := r.version, existsFlag := true }) ∧
    (∀ r ∈ st.cw1155Reg,
      Pointer st { pointerType := PointerType_CW1155, pointee := r.pointee } =
        .ok { pointer := r.pointer.hex, version := r.version, existsFlag := true } ∧
      Pointee st { pointerType := PointerType_CW1155, pointer := r.pointer.hex } =
        .ok { pointee := r.pointee, version := r.version, existsFlag := true }) ∧
    (∀ r ∈ st.erc20Reg,
      Pointer st { pointerType := PointerType_ERC20, pointee := r.pointee.hex } =
        .ok { pointer := r.pointer.bech, version := r.version, existsFlag := true } ∧
      Pointee st { pointerType := PointerType_ERC20, pointer := r.pointer.bech } =
        .ok { pointee := r.pointee.hex, version := r.version, existsFlag := true }) ∧
    (∀ r ∈ st.erc721Reg,
      Pointer st { pointerType := PointerType_ERC721, pointee := r.pointee.hex } =
        .ok { pointer := r.pointer.bech, version := r.version, existsFlag := true } ∧
      Pointee st { pointerType := PointerType_ERC721, pointer := r.pointer.bech } =
        .ok { pointee := r.pointee.hex, version := r.version, existsFlag := true }) ∧
    (∀ r ∈ st.erc1155Reg,
      Pointer st { pointerType := PointerType_ERC1155, pointee := r.pointee.hex } =
        .ok { pointer := r.pointer.bech, version := r.version, existsFlag := true } ∧
      Pointee st { pointerType := PointerType_ERC1155, pointer := r.pointer.bech } =
        .ok { pointee := r.pointee.hex, version := r.version, existsFlag := true }) := by
  obtain ⟨h1, h2, h3, h4, h5, h6, h7, hn1, hn2, hn3, hn4⟩ := hWF
  refine ⟨?_, ?_, ?_, ?_, ?_, ?_, ?_⟩
  · exact fun r hr =>
      ⟨Pointer_native_found h1.1 (hn1 r hr) hr, Pointee_native_found h1.2 hr⟩
  · exact fun r hr =>
      ⟨Pointer_cw20_found h2.1 (hn2 r hr) hr, Pointee_cw20_found h2.2 hr⟩
  · exact fun r hr =>
      ⟨Pointer_cw721_found h3.1 (hn3 r hr) hr, Pointee_cw721_found h3.2 hr⟩
  · exact fun r hr =>
      ⟨Pointer_cw1155_found h4.1 (hn4 r hr) hr, Pointee_cw1155_found h4.2 hr⟩
  · exact fun r hr => ⟨Pointer_erc20_found h5.1 hr, Pointee_erc20_found h5.2 hr⟩
  · exact fun r hr => ⟨Pointer_erc721_found h6.1 hr, Pointee_erc721_found h6.2 hr⟩
  · exact fun r hr => ⟨Pointer_erc1155_found h7.1 hr, Pointee_erc1155_found h7.2 hr⟩

/-- Witness for C1 at a concrete snapshot: the round trip through the
native-standard record and through the ERC20-standard record of `exSt`. -/
theorem pointer_pointee_round_trip_witness :
    (Pointer exSt { pointerType := PointerType_NATIVE, pointee := "usei" } =
       .ok { pointer := (mkEVM 31).hex, version := 1, existsFlag := true } ∧
     Pointee exSt { pointerType := PointerType_NATIVE, pointer := (mkEVM 31).hex } =
       .ok { pointee := "usei", version := 1, existsFlag := true }) ∧
    (Pointer exSt { pointerType := PointerType_ERC20, pointee := (mkEVM 41).hex } =
       .ok { pointer := (mkSei 51).bech, version := 1, existsFlag := true } ∧
     Pointee exSt { pointerType := PointerType_ERC20, pointer := (mkSei 51).bech } =
       .ok { pointee := (mkEVM 41).hex, version := 1, existsFlag := true }) :=
  ⟨(pointer_pointee_round_trip exSt (by decide)).1
      { pointee := "usei", pointer := mkEVM 31, version := 1 } (by decide),
   (pointer_pointee_round_trip exSt (by decide)).2.2.2.2.1
      { pointee := mkEVM 41, pointer := mkSei 51, version := 1 } (by decide)⟩

/-- C10: in both `Pointer` and `Pointee` the emptiness check on the key
argument takes precedence over the standard-enum check: for every tag,
known or not, an empty key yields the must-specify error and never the
unsupported-standard error. -/
theorem empty_key_precedes_enum_check (st : ChainState) (pt : Int) :
    Pointer st { pointerType := pt, pointee := "" } = .error .errMustSpecifyPointee ∧
    Pointer st { pointerType := pt, pointee := "" } ≠ .error .errUnsupported ∧
    Pointee st { pointerType := pt, pointer := "" } = .error .errMustSpecifyPointer ∧
    Pointee st { pointerType := pt, pointer := "" } ≠ .error .errUnsupported := by
  have hP : Pointer st { pointerType := pt, pointee := "" } =
      .error .errMustSpecifyPointee := by simp [Pointer]
  have hQ : Pointee st { pointerType := pt, pointer := "" } =
      .error .errMustSpecifyPointer := by simp [Pointee]
  refine ⟨hP, ?_, hQ, ?_⟩
  · rw [hP]; decide
  · rw [hQ]; decide

/-- C7: every standard tag outside the seven known ones, together with any
non-empty key, makes `Pointer`, `PointerVersion` and `Pointee` all fail
with the same unsupported error. -/
theorem unknown_standard_unsupported (st : ChainState) (pt : Int) (key : String)
    (hpt : pt ∉ knownPointerTypes) (hkey : key ≠ "") :
    Pointer st { pointerType := pt, pointee := key } = .error .errUnsupported ∧
    PointerVersion st { pointerType := pt } = .error .errUnsupported ∧
    Pointee st { pointerType := pt, pointer := key } = .error .errUnsupported := by
  simp only [knownPointerTypes, List.mem_cons, List.mem_singleton, not_or,
    PointerType_NATIVE, PointerType_CW20, PointerType_CW721, PointerType_CW1155,
    PointerType_ERC20, PointerType_ERC721, PointerType_ERC1155] at hpt
  obtain ⟨ne0, ne1, ne2, ne3, ne4, ne5, ne6⟩ := hpt
  refine ⟨?_, ?_, ?_⟩
  · simp [Pointer, hkey, PointerType_NATIVE, PointerType_CW20, PointerType_CW721,
      PointerType_CW1155, PointerType_ERC20, PointerType_ERC721, PointerType_ERC1155,
      ne0, ne1, ne2, ne3, ne4, ne5, ne6]
  · simp [PointerVersion, PointerType_NATIVE, PointerType_CW20, PointerType_CW721,
      PointerType_CW1155, PointerType_ERC20, PointerType_ERC721, PointerType_ERC1155,
      ne0, ne1, ne2, ne3, ne4, ne5, ne6]
  · simp [Pointee, hkey, PointerType_NATIVE, PointerType_CW20, PointerType_CW721,
      PointerType_CW1155, PointerType_ERC20, PointerType_ERC721, PointerType_ERC1155,
      ne0, ne1, ne2, ne3, ne4, ne5, ne6]

/-- Witness for C7 at the concrete unknown tag 7. -/
theorem unknown_standard_unsupported_witness :
    Pointer exSt { pointerType := 7, pointee := "k" } = .error .errUnsupported ∧
    PointerVersion exSt { pointerType := 7 } = .error .errUnsupported ∧
    Pointee exSt { pointerType := 7, pointer := "k" } = .error .errUnsupported :=
  unknown_standard_unsupported exSt 7 "k" (by decide) (by decide)

/-- C6: for each of the seven known standards, `Pointer` with an empty
pointee key fails with the must-specify-pointee error and `Pointee` with an
empty pointer address fails with the must-specify-pointer error; a
non-empty but unregistered key succeeds with `exists=false` and zero-value
pointer address and version in `Pointer`, and mirror-wise in `Pointee`. -/
theorem pointer_pointee_empty_and_unregistered (st : ChainState) :
    (∀ pt ∈ knownPointerTypes,
      Pointer st { pointerType := pt, pointee := "" } = .error .errMustSpecifyPointee ∧
      Pointee st { pointerType := pt, pointer := "" } = .error .errMustSpecifyPointer) ∧
    (∀ k, k ≠ "" → fwdLookup st.nativeReg k = none →
      Pointer st { pointerType := PointerType_NATIVE, pointee := k } =
        .ok { existsFlag := false }) ∧
    (∀ k, k ≠ "" → fwdLookup st.cw20Reg k = none →
      Pointer st { pointerType := PointerType_CW20, pointee := k } =
        .ok { existsFlag := false }) ∧
    (∀ k, k ≠ "" → fwdLookup st.cw721Reg k = none →
      Pointer st { pointerType := PointerType_CW721, pointee := k } =
        .ok { existsFlag := false }) ∧
    (∀ k, k ≠ "" → fwdLookup st.cw1155Reg k = none →
      Pointer st { pointerType := PointerType_CW1155, pointee := k } =
        .ok { existsFlag := false }) ∧
    (∀ k, k ≠ "" → fwdLookup st.erc20Reg (hexToAddress k) = none →
      Pointer st { pointerType := PointerType_ERC20, pointee := k } =
        .ok { existsFlag := false }) ∧
    (∀ k, k ≠ "" → fwdLookup st.erc721Reg (hexToAddress k) = none →
      Pointer st { pointerType := PointerType_ERC721, pointee := k } =
        .ok { existsFlag := false }) ∧
    (∀ k, k ≠ "" → fwdLookup st.erc1155Reg (hexToAddress k) = none →
      Pointer st { pointerType := PointerType_ERC1155, pointee := k } =
        .ok { existsFlag := false }) ∧
    (∀ s, s ≠ "" → bwdLookup st.nativeReg (hexToAddress s) = none →
      Pointee st { pointerType := PointerType_NATIVE, pointer := s } =
        .ok { existsFlag := false }) ∧
    (∀ s, s ≠ "" → bwdLookup st.cw20Reg (hexToAddress s) = none →
      Pointee st { pointerType := PointerType_CW20, pointer := s } =
        .ok { existsFlag := false }) ∧
    (∀ s, s ≠ "" → bwdLookup st.cw721Reg (hexToAddress s) = none →
      Pointee st { pointerType := PointerType_CW721, pointer := s } =
        .ok { existsFlag := false }) ∧
    (∀ s, s ≠ "" → bwdLookup st.cw1155Reg (hexToAddress s) = none →
      Pointee st { pointerType := PointerType_CW1155, pointer := s } =
        .ok { existsFlag := false }) ∧
    (∀ s, s ≠ "" → bwdLookupBech st.erc20Reg s = none →
      Pointee st { pointerType := PointerType_ERC20, pointer := s } =
        .ok { existsFlag := false }) ∧
    (∀ s, s ≠ "" → bwdLookupBech st.erc721Reg s = none →
      Pointee st { pointerType := PointerType_ERC721, pointer := s } =
        .ok { existsFlag := false }) ∧
    (∀ s, s ≠ "" → bwdLookupBech st.erc1155Reg s = none →
      Pointee st { pointerType := PointerType_ERC1155, pointer := s } =
        .ok { existsFlag := false }) := by
  refine ⟨fun pt _ => ⟨by simp [Pointer], by simp [Pointee]⟩,
    ?_, ?_, ?_, ?_, ?_, ?_, ?_, ?_, ?_, ?_, ?_, ?_, ?_, ?_⟩
  · intro k hk hnone
    unfold Pointer GetERC20NativePointer
    rw [hnone]
    simp [hk, tripleOf]
  · intro k hk hnone
    unfold Pointer GetERC20CW20Pointer
    rw [hnone]
    simp [hk, tripleOf, PointerType_NATIVE, PointerType_CW20]
  · intro k hk hnone
    unfold Pointer GetERC721CW721Pointer
    rw [hnone]
    simp [hk, tripleOf, PointerType_NATIVE, PointerType_CW20, PointerType_CW721]
  · intro k hk hnone
    unfold Pointer GetERC1155CW1155Pointer
    rw [hnone]
    simp [hk, tripleOf, PointerType_NATIVE, PointerType_CW20, PointerType_CW721,
      PointerType_CW1155]
  · intro k hk hnone
    unfold Pointer GetCW20ERC20Pointer
    rw [hnone]
    simp [hk, tripleOf, PointerType_NATIVE, PointerType_CW20, PointerType_CW721,
      PointerType_CW1155, PointerType_ERC20]
  · intro k hk hnone
    unfold Pointer GetCW721ERC721Pointer
    rw [hnone]
    simp [hk, tripleOf, PointerType_NATIVE, PointerType_CW20, PointerType_CW721,
      PointerType_CW1155, PointerType_ERC20, PointerType_ERC721]
  · intro k hk hnone
    unfold Pointer GetCW1155ERC1155Pointer
    rw [hnone]
    simp [hk, tripleOf, PointerType_NATIVE, PointerType_CW20, PointerType_CW721,
      PointerType_CW1155, PointerType_ERC20, PointerType_ERC721, PointerType_ERC1155]
  · intro s hs hnone
    unfold Pointee GetNativePointee
    rw [hnone]
    simp [hs, tripleOf]
  · intro s hs hnone
    unfold Pointee GetCW20Pointee
    rw [hnone]
    simp [hs, tripleOf, PointerType_NATIVE, PointerType_CW20]
  · intro s hs hnone
    unfold Pointee GetCW721Pointee
    rw [hnone]
    simp [hs, tripleOf, PointerType_NATIVE, PointerType_CW20, PointerType_CW721]
  · intro s hs hnone
    unfold Pointee GetCW1155Pointee
    rw [hnone]
    simp [hs, tripleOf, PointerType_NATIVE, PointerType_CW20, PointerType_CW721,
      PointerType_CW1155]
  · intro s hs hnone
    unfold Pointee GetERC20Pointee
    rw [hnone]
    simp [hs, tripleOf, PointerType_NATIVE, PointerType_CW20, PointerType_CW721,
      PointerType_CW1155, PointerType_ERC20]
  · intro s hs hnone
    unfold Pointee GetERC721Pointee
    rw [hnone]
    simp [hs, tripleOf, PointerType_NATIVE, PointerType_CW20, PointerType_CW721,
      PointerType_CW1155, PointerType_ERC20, PointerType_ERC721]
  · intro s hs hnone
    unfold Pointee GetERC1155Pointee
    rw [hnone]
    simp [hs, tripleOf, PointerType_NATIVE, PointerType_CW20, PointerType_CW721,
      PointerType_CW1155, PointerType_ERC20, PointerType_ERC721, PointerType_ERC1155]

/-- Witness for C6 at concrete inputs: empty keys on the CW20 tag, and an
unregistered non-empty key in the native registry of `exSt`. -/
theorem pointer_pointee_empty_and_unregistered_witness :
    (Pointer exSt { pointerType := PointerType_CW20, pointee := "" } =
       .error .errMustSpecifyPointee ∧
     Pointee exSt { pointerType := PointerType_CW20, pointer := "" } =
       .error .errMustSpecifyPointer) ∧
    Pointer exSt { pointerType := PointerType_NATIVE, pointee := "uatom" } =
      .ok { existsFlag := false } :=
  ⟨(pointer_pointee_empty_and_unregistered exSt).1 PointerType_CW20 (by decide),
   (pointer_pointee_empty_and_unregistered exSt).2.1 "uatom" (by decide) (by decide)⟩

/-- C2: `StaticCall` with an empty target fails, with the
create-contracts error (classed `InvalidArgument` by the spec's taxonomy),
before any execution or gas charge: the outcome reports zero gas used and
no EVM invocation, for every call data, ambient meter and state. -/
theorem static_call_empty_target (st : ChainState) (ambient : GasMeter) (d : List Nat) :
    StaticCall st ambient { To := "", Data := d } =
      { result := .error .errStaticCallCreate, gasUsed := 0, invocation := none } ∧
    isInvalidArgumentError .errStaticCallCreate = true := by
  exact ⟨by simp [StaticCall], rfl⟩

/-- `StaticCall` on a non-empty target always invokes the EVM engine, with
the module account as sender and the ambient meter replaced exactly when
its limit is zero. -/
theorem StaticCall_invocation (st : ChainState) (ambient : GasMeter)
    (req : QueryStaticCallRequest) (hne : req.To ≠ "") :
    (StaticCall st ambient req).invocation =
      some { sender := st.evmModuleAddress, target := hexToAddress req.To,
             data := req.Data,
             meter := if ambient.limit = 0 then NewGasMeterWithMultiplier st st.queryGasLimit
                      else ambient } := by
  unfold StaticCall
  rw [if_neg hne]
  split <;> (dsimp only []; split <;> rfl)

/-- C5: for every `StaticCall` with a non-empty target, the sender passed
into the EVM execution is the module's own account address, a value of the
state alone — no field of the request influences it. -/
theorem static_call_fixed_sender (st : ChainState) (ambient : GasMeter)
    (req : QueryStaticCallRequest) (hne : req.To ≠ "") :
    (StaticCall st ambient req).invocation.map (fun inv => inv.sender) =
      some st.evmModuleAddress := by
  rw [StaticCall_invocation st ambient req hne]
  rfl

/-- Witness for C5 at concrete inputs. -/
theorem static_call_fixed_sender_witness :
    (StaticCall exSt { limit := 0, multiplier := 1 }
        { To := (mkEVM 21).hex, Data := [1, 2] }).invocation.map
      (fun inv => inv.sender) = some exSt.evmModuleAddress :=
  static_call_fixed_sender exSt { limit := 0, multiplier := 1 }
    { To := (mkEVM 21).hex, Data := [1, 2] } (by decide)

/-- C3: when the target is non-empty and the ambient gas budget is
unset/zero, the call executes under a fresh meter carrying the configured
query gas limit and the configured multiplier — with a positive configured
limit the call does not proceed with an unlimited budget. -/
theorem static_call_gas_derivation (st : ChainState) (ambient : GasMeter)
    (req : QueryStaticCallRequest) (hne : req.To ≠ "") (hzero : ambient.limit = 0)
    (hcfg : 0 < st.queryGasLimit) :
    (StaticCall st ambient req).invocation.map (fun inv => inv.meter) =
      some { limit := st.queryGasLimit, multiplier := st.gasMultiplier } ∧
    ∀ inv ∈ (StaticCall st ambient req).invocation, inv.meter.limit ≠ 0 := by
  have hinv := StaticCall_invocation st ambient req hne
  rw [hzero] at hinv
  simp only [if_pos rfl] at hinv
  constructor
  · rw [hinv]
    rfl
  · intro inv hmem
    rw [hinv] at hmem
    simp only [Option.mem_some_iff] at hmem
    rw [← hmem]
    simp [NewGasMeterWithMultiplier]
    omega

/-- Witness for C3 at concrete inputs. -/
theorem static_call_gas_derivation_witness :
    (StaticCall exSt { limit := 0, multiplier := 5 }
        { To := (mkEVM 21).hex, Data := [] }).invocation.map
      (fun inv => inv.meter) =
        some { limit := exSt.queryGasLimit, multiplier := exSt.gasMultiplier } ∧
    ∀ inv ∈ (StaticCall exSt { limit := 0, multiplier := 5 }
        { To := (mkEVM 21).hex, Data := [] }).invocation, inv.meter.limit ≠ 0 :=
  static_call_gas_derivation exSt { limit := 0, multiplier := 5 }
    { To := (mkEVM 21).hex, Data := [] } (by decide) rfl (by decide)

/-- C8: `PointerVersion` succeeds on all seven known standards; the three
code-template standards report the stored code identifier (the zero
sentinel when nothing was ever stored, last conjunct), the other four
report the zero default. -/
theorem pointer_version_total (st : ChainState) :
    PointerVersion st { pointerType := PointerType_NATIVE } =
      .ok { version := nativeCurrentVersion } ∧
    PointerVersion st { pointerType := PointerType_CW20 } =
      .ok { version := cw20CurrentVersion st } ∧
    PointerVersion st { pointerType := PointerType_CW721 } =
      .ok { version := cw721CurrentVersion } ∧
    PointerVersion st { pointerType := PointerType_CW1155 } =
      .ok { version := cw1155CurrentVersion } ∧
    PointerVersion st { pointerType := PointerType_ERC20 } =
      .ok { version := erc20CurrentVersion,
            cwCodeId := GetStoredPointerCodeID st PointerType_ERC20 } ∧
    PointerVersion st { pointerType := PointerType_ERC721 } =
      .ok { version := erc721CurrentVersion,
            cwCodeId := GetStoredPointerCodeID st PointerType_ERC721 } ∧
    PointerVersion st { pointerType := PointerType_ERC1155 } =
      .ok { version := erc1155CurrentVersion,
            cwCodeId := GetStoredPointerCodeID st PointerType_ERC1155 } ∧
    (∀ pt : Int, st.storedCodeIds.find? (fun q => decide (q.1 = pt)) = none →
      GetStoredPointerCodeID st pt = 0) := by
  refine ⟨?_, ?_, ?_, ?_, ?_, ?_, ?_, ?_⟩
  · simp [PointerVersion]
  · simp [PointerVersion, PointerType_NATIVE, PointerType_CW20]
  · simp [PointerVersion, PointerType_NATIVE, PointerType_CW20, PointerType_CW721]
  · simp [PointerVersion, PointerType_NATIVE, PointerType_CW20, PointerType_CW721,
      PointerType_CW1155]
  · simp [PointerVersion, PointerType_NATIVE, PointerType_CW20, PointerType_CW721,
      PointerType_CW1155, PointerType_ERC20]
  · simp [PointerVersion, PointerType_NATIVE, PointerType_CW20, PointerType_CW721,
      PointerType_CW1155, PointerType_ERC20, PointerType_ERC721]
  · simp [PointerVersion, PointerType_NATIVE, PointerType_CW20, PointerType_CW721,
      PointerType_CW1155, PointerType_ERC20, PointerType_ERC721, PointerType_ERC1155]
  · intro pt h
    unfold GetStoredPointerCodeID
    rw [h]
    rfl

/-- Witness for C8: the never-stored ERC721 code identifier of `exSt` is
the zero sentinel while the query still succeeds. -/
theorem pointer_version_total_witness :
    PointerVersion exSt { pointerType := PointerType_ERC721 } =
      .ok { version := erc721CurrentVersion,
            cwCodeId := GetStoredPointerCodeID exSt PointerType_ERC721 } ∧
    GetStoredPointerCodeID exSt PointerType_ERC721 = 0 :=
  ⟨(pointer_version_total exSt).2.2.2.2.2.1,
   (pointer_version_total exSt).2.2.2.2.2.2.2 PointerType_ERC721 (by decide)⟩

/-- C9: the reported version is a fixed constant for the six standards
Native, CW721, CW1155, ERC20, ERC721, ERC1155 — the same for any two
snapshots — while for CW20 it is the live activation state of the
snapshot, and two snapshots can disagree on it. -/
theorem pointer_version_fixed_vs_cw20 (st st2 : ChainState) :
    ((PointerVersion st { pointerType := PointerType_NATIVE }).map (fun r => r.version) =
      (PointerVersion st2 { pointerType := PointerType_NATIVE }).map (fun r => r.version)) ∧
    ((PointerVersion st { pointerType := PointerType_CW721 }).map (fun r => r.version) =
      (PointerVersion st2 { pointerType := PointerType_CW721 }).map (fun r => r.version)) ∧
    ((PointerVersion st { pointerType := PointerType_CW1155 }).map (fun r => r.version) =
      (PointerVersion st2 { pointerType := PointerType_CW1155 }).map (fun r => r.version)) ∧
    ((PointerVersion st { pointerType := PointerType_ERC20 }).map (fun r => r.version) =
      (PointerVersion st2 { pointerType := PointerType_ERC20 }).map (fun r => r.version)) ∧
    ((PointerVersion st { pointerType := PointerType_ERC721 }).map (fun r => r.version) =
      (PointerVersion st2 { pointerType := PointerType_ERC721 }).map (fun r => r.version)) ∧
    ((PointerVersion st { pointerType := PointerType_ERC1155 }).map (fun r => r.version) =
      (PointerVersion st2 { pointerType := PointerType_ERC1155 }).map (fun r => r.version)) ∧
    ((PointerVersion st { pointerType := PointerType_CW20 }).map (fun r => r.version) =
      .ok (cw20CurrentVersion st)) ∧
    (∃ s1 s2 : ChainState,
      (PointerVersion s1 { pointerType := PointerType_CW20 }).map (fun r => r.version) ≠
        (PointerVersion s2 { pointerType := PointerType_CW20 }).map (fun r => r.version)) := by
  have h1 := pointer_version_total st
  have h2 := pointer_version_total st2
  refine ⟨?_, ?_, ?_, ?_, ?_, ?_, ?_, ?_⟩
  · rw [h1.1, h2.1]
  · rw [h1.2.2.1, h2.2.2.1]
  · rw [h1.2.2.2.1, h2.2.2.2.1]
  · rw [h1.2.2.2.2.1, h2.2.2.2.2.1]
    simp [Except.map]
  · rw [h1.2.2.2.2.2.1, h2.2.2.2.2.2.1]
    simp [Except.map]
  · rw [h1.2.2.2.2.2.2.1, h2.2.2.2.2.2.2.1]
    simp [Except.map]
  · rw [h1.2.1]
    rfl
  · exact ⟨exSt, { exSt with cw20Version := 3 }, by decide⟩

/-- Counterexample to C4 as stated: the string "zz" is a non-empty,
malformed foreign address (not canonical hexadecimal), yet the lookup does
not fail with any error — the facade coerces it through the total hex
codec (yielding the zero address) and reports `associated = false`. -/
theorem malformed_evm_address_not_rejected :
    SeiAddressByEVMAddress exSt { evmAddress := "zz" } = .ok { associated := false } := by
  decide

/-- C4 amended: `EVMAddressBySeiAddress` rejects an empty address with the
invalid-request error, propagates the decode error on a malformed bech32
address, and reports `associated = false` without error on a well-formed
unassociated address; `SeiAddressByEVMAddress` rejects only an empty
address — any non-empty string, well-formed or not, is coerced through the
total hex codec and looked up, reporting `associated = false` without error
when no association is recorded. -/
theorem address_lookup_validation (st : ChainState) :
    (EVMAddressBySeiAddress st { seiAddress := "" } = .error .errInvalidRequest) ∧
    (∀ s m, s ≠ "" → accAddressFromBech32 s = .error m →
      EVMAddressBySeiAddress st { seiAddress := s } = .error (.errBech32Decode m)) ∧
    (∀ a : SeiAddr, (∀ q ∈ st.assoc, q.1 ≠ a) →
      EVMAddressBySeiAddress st { seiAddress := a.bech } = .ok { associated := false }) ∧
    (SeiAddressByEVMAddress st { evmAddress := "" } = .error .errInvalidRequest) ∧
    (∀ s, s ≠ "" → (∀ q ∈ st.assoc, q.2 ≠ hexToAddress s) →
      SeiAddressByEVMAddress st { evmAddress := s } = .ok { associated := false }) := by
  refine ⟨by simp [EVMAddressBySeiAddress], ?_, ?_, by simp [SeiAddressByEVMAddress], ?_⟩
  · intro s m hs herr
    unfold EVMAddressBySeiAddress
    rw [if_neg hs, herr]
  · intro a hna
    have hbne := SeiAddr.bech_ne_empty a
    unfold EVMAddressBySeiAddress
    rw [if_neg hbne, accAddressFromBech32_bech a]
    unfold GetEVMAddress
    dsimp only []
    have hfind : st.assoc.find? (fun q => decide (q.1 = a)) = none := by
      apply List.find?_eq_none.mpr
      intro x hx
      simp [hna x hx]
    rw [hfind]
    rfl
  · intro s hs hna
    unfold SeiAddressByEVMAddress
    rw [if_neg hs]
    unfold GetSeiAddress
    dsimp only []
    have hfind : st.assoc.find? (fun q => decide (q.2 = hexToAddress s)) = none := by
      apply List.find?_eq_none.mpr
      intro x hx
      simp [hna x hx]
    rw [hfind]
    rfl

/-- Witness for the amended C4 at concrete unassociated addresses of
`exSt`. -/
theorem address_lookup_validation_witness :
    EVMAddressBySeiAddress exSt { seiAddress := (mkSei 77).bech } =
      .ok { associated := false } ∧
    SeiAddressByEVMAddress exSt { evmAddress := (mkEVM 88).hex } =
      .ok { associated := false } :=
  ⟨(address_lookup_validation exSt).2.2.1 (mkSei 77) (by decide),
   (address_lookup_validation exSt).2.2.2.2 ((mkEVM 88).hex) (by decide) (by decide)⟩
